import Mathlib

/-!
Verification of the connection supervisor of `nordmacpy` (`src/connection.py`).

The Python module is shallowly embedded: every externally visible effect
(running a subprocess, polling a process, reading a stream, opening a TCP
connection, reading a monotonic clock) is replaced by an explicit oracle value
supplied as input, and each Python function becomes a pure Lean function over
those oracles.  Control flow, string construction and data structures follow
the source line by line.
-/

namespace VPN

/-! ## Python string helpers

`containsSub s sub` models the Python expression `sub in s` (substring test,
true for the empty needle).  Implemented over `List Char` by structural
recursion so that the kernel can evaluate it. -/

def listHasPre : List Char → List Char → Bool
  | _, [] => true
  | [], _ :: _ => false
  | a :: as, b :: bs => a == b && listHasPre as bs

def listHasSub (s sub : List Char) : Bool :=
  match s with
  | [] => sub.isEmpty
  | _ :: rest => listHasPre s sub || listHasSub rest sub

def containsSub (s sub : String) : Bool :=
  listHasSub s.data sub.data

/-- Statement that the string `s` starts with `p`
(the "reason begins with ..." phrasing of the specification). -/
def beginsWith (s p : String) : Prop :=
  ∃ t, s = p ++ t

/-- Model of the Python slice `l[-n:]` for a nonnegative `n`.
Note that in Python `l[-0:]` is `l[0:]`, i.e. the whole list, not the empty
list; the `n = 0` case below reproduces that. -/
def slice_last {α : Type} (n : Nat) (l : List α) : List α :=
  if n = 0 then l else l.drop (l.length - n)

/-! ## StreamWatcher (`connection.py` lines 32-82)

The watcher thread reads lines from the process output stream.  Its shared
state (guarded by `self._lock` in the source) is the `lines` buffer and the
two one-shot events.  `watcherPush` is the body of the `for` loop executed for
one line; `watcherRun` is the whole `run` method applied to the finite
sequence of lines the stream yields, with the `finally` block setting the
exit event at the end.  Echoing (`verbose`) and closing the stream are I/O
with no effect on the shared state and are not modelled. -/

structure WatcherState where
  lines : List String
  initSet : Bool
  exitSet : Bool
  deriving Repr, DecidableEq

def watcherPush (keep_last_n : Nat) (needle : String) (st : WatcherState)
    (line : String) : WatcherState :=
  { lines :=
      if (st.lines ++ [line]).length > keep_last_n * 2 then
        slice_last keep_last_n (st.lines ++ [line])
      else st.lines ++ [line],
    initSet := st.initSet || containsSub line needle,
    exitSet := st.exitSet }

def watcherRun (keep_last_n : Nat) (needle : String)
    (input : List String) : WatcherState :=
  let final := input.foldl (watcherPush keep_last_n needle) ⟨[], false, false⟩
  { final with exitSet := true }

/-- Embeds `StreamWatcher.tail` (lines 60-62): joins the last `keep_last_n` buffered
lines under the lock. -/
def watcherTail (keep_last_n : Nat) (st : WatcherState) : String :=
  String.join (slice_last keep_last_n st.lines)

/-! ## Command runner (`_run_cmd`, lines 114-170)

The behaviour of the external command is an oracle value: -/

inductive ExecOutcome where
  /-- the call `subprocess.run` completed; carries the return code and merged output. -/
  | completed (rc : Int) (out : String)
  /-- the exception `subprocess.TimeoutExpired` was raised; carries the output collected so
  far (stdout and stderr concatenated, as the handler does). -/
  | timedOut (collected : String)
  /-- any other exception while starting/running the command; carries the
  exception text. -/
  | startFailed (msg : String)
  deriving Repr, DecidableEq

def strLower (s : String) : String :=
  String.mk (s.data.map Char.toLower)

/-- Embeds `_looks_like_sudo_tty_problem` (lines 103-111); note the Python operator
precedence: `a or b or (c and d) or e`. -/
def looks_like_sudo_tty_problem (out : String) : Bool :=
  let t := strLower out
  containsSub t "a terminal is required to read the password" ||
  containsSub t "a password is required" ||
  (containsSub t "sudo:" && containsSub t "password") ||
  containsSub t "sorry, you must have a tty"

/-- Embeds `_run_cmd` (lines 114-170).  Returns `Except` where `.error` models a
raised exception escaping the function (only possible with `check = true`;
the `raise RuntimeError` for a non-zero exit is re-raised by the generic
`except Exception` handler when `check` is set).  Verbose printing is I/O and
is not modelled; the command line itself only feeds printing. -/
def runCmd (o : ExecOutcome) (check : Bool) (label : String) :
    Except String (Int × String) :=
  match o with
  | .completed rc out =>
    if check && rc != 0 then
      .error (label ++ " failed rc=" ++ toString rc ++
        (if looks_like_sudo_tty_problem out then
          "\nLikely cause: sudo is prompting but Python has no TTY.\nFix: use sudo -n and add the exact command to visudo NOPASSWD.\n"
        else "") ++ "\n" ++ out)
    else .ok (rc, out)
  | .timedOut collected =>
    if check then .error (label ++ " timed out\n" ++ collected ++ "\n[TIMEOUT]\n")
    else .ok (124, collected ++ "\n[TIMEOUT]\n")
  | .startFailed msg =>
    if check then .error msg
    else .ok (127, "[EXCEPTION] " ++ msg ++ "\n")

/-- Embeds `_sudo_cmd` (lines 173-186): runs `sudo -n <cmd>` through `_run_cmd`;
the prefixed argv only changes the executed command (already abstracted into
the oracle), so the result is that of `runCmd`. -/
def sudoCmd (o : ExecOutcome) (check : Bool) (label : String) :
    Except String (Int × String) :=
  runCmd o check label

/-! ## Network probes (`connection.py` lines 194-231) -/

/-- Python's `\s` on ASCII text (space, tab, newline, return, vertical tab,
form feed). -/
def isPySpace (c : Char) : Bool :=
  c == ' ' || c == '\t' || c == '\n' || c == '\r' ||
  c == Char.ofNat 11 || c == Char.ofNat 12

/-- Matches the regex `\s+utun\d+` at the head of `l` (at least one
whitespace, then `utun`, then at least one ASCII digit). -/
def utunMatchAt (l : List Char) : Bool :=
  match l with
  | [] => false
  | c :: rest =>
    isPySpace c &&
      (let r := rest.dropWhile isPySpace
       listHasPre r "utun".data &&
         (match r.drop 4 with
          | d :: _ => d.isDigit
          | [] => false))

/-- Scans for `interface:` followed by `\s+utun\d+` anywhere in the list,
i.e. `re.search(r"interface:\s+utun\d+", out)` on ASCII output. -/
def utunSearch : List Char → Bool
  | [] => false
  | c :: rest =>
    (listHasPre (c :: rest) "interface:".data &&
      utunMatchAt ((c :: rest).drop 10)) ||
    utunSearch rest

def utun_regex_match (out : String) : Bool :=
  utunSearch out.data

/-- Embeds `_route_uses_utun` (lines 202-208): runs `route -n get <ip>` (oracle:
`rc`, `out`) and requires a zero exit code and the interface pattern. -/
def route_uses_utun (ip : String) (rc : Int) (out : String) : Bool :=
  if rc != 0 then false else utun_regex_match out

/-- Oracle for one invocation of `_internet_probe_ok`: the outcome of the
`route -n get 1.1.1.1` command, the outcome of each TCP connect attempt, and
the formatted elapsed time (`f"{elapsed:.2f}"`) observed if the attempt at a
given index fails. -/
structure ProbeNetEnv where
  routeRc : Int
  routeOut : String
  tcpOk : String → Nat → Bool
  elapsedAt : Nat → String

/-- The fixed target list of `_internet_probe_ok` (lines 221-224). -/
def probeTargets : List (String × Nat) :=
  [("api.ipify.org", 443), ("1.1.1.1", 443)]

/-- The `for host, port in tests` loop (lines 226-230): returns the result
together with the list of targets actually attempted. -/
def probeAttempts (env : ProbeNetEnv) :
    List (String × Nat) → Nat → (Bool × String) × List (String × Nat)
  | [], _ => ((true, "probe-ok"), [])
  | (host, port) :: rest, i =>
    if env.tcpOk host port then
      let r := probeAttempts env rest (i + 1)
      (r.1, (host, port) :: r.2)
    else
      ((false, "tcp-connect-failed " ++ host ++ ":" ++ toString port ++
          " after " ++ env.elapsedAt i ++ "s"),
        [(host, port)])

/-- Embeds `_internet_probe_ok` (lines 211-231). -/
def internet_probe_ok (require_vpn_route : Bool) (env : ProbeNetEnv) :
    (Bool × String) × List (String × Nat) :=
  if require_vpn_route && !route_uses_utun "1.1.1.1" env.routeRc env.routeOut then
    ((false, "route-to-1.1.1.1-not-utun"), [])
  else
    probeAttempts env probeTargets 0

/-! ## Escalating stopper (`stop_process`, lines 278-322)

The process is modelled by the outcomes of the status calls made on it:
`initialPoll` is `proc.poll()` at entry (`some rc` = already exited);
`waitIntRc` is `proc.wait(timeout=sigint_grace_s)` after the interrupt is
sent (`some rc` = the process exited within the grace period, `none` =
`TimeoutExpired`); `waitTermRc` likewise for the terminate step; and
`finalWaitRc` is the unbounded `proc.wait()` after SIGKILL, which by POSIX
semantics returns only once the process is reaped.  The `…Ok` flags record
whether `os.killpg` on the group (`group…`) and the per-process fallback
(`single…`) deliver without raising; a failure of both is swallowed and the
ladder proceeds. -/

inductive Sig where
  | int
  | term
  | kill
  deriving Repr, DecidableEq

structure ProcModel where
  initialPoll : Option Int
  waitIntRc : Option Int
  waitTermRc : Option Int
  finalWaitRc : Int
  groupIntOk : Bool
  singleIntOk : Bool
  groupTermOk : Bool
  singleTermOk : Bool
  groupKillOk : Bool
  singleKillOk : Bool

/-- Result of `stop_process`: the returned exit status, the escalation steps
reached, the signals actually delivered, and whether the target process is
still alive when the function returns.  Every return statement in the source
follows either a non-`None` `poll()` or a `wait()` that returned, so `alive`
is `false` on every path by the semantics of those calls. -/
structure StopResult where
  rc : Int
  attempted : List Sig
  delivered : List Sig
  alive : Bool
  deriving Repr, DecidableEq

def stop_process (p : ProcModel) : StopResult :=
  match p.initialPoll with
  | some rc => ⟨rc, [], [], false⟩
  | none =>
    let dInt : List Sig := if p.groupIntOk || p.singleIntOk then [.int] else []
    match p.waitIntRc with
    | some rc => ⟨rc, [.int], dInt, false⟩
    | none =>
      let dTerm := dInt ++ if p.groupTermOk || p.singleTermOk then [.term] else []
      match p.waitTermRc with
      | some rc => ⟨rc, [.int, .term], dTerm, false⟩
      | none =>
        let dKill := dTerm ++ if p.groupKillOk || p.singleKillOk then [.kill] else []
        ⟨p.finalWaitRc, [.int, .term, .kill], dKill, false⟩

/-! ## Cleanup routine (lines 330-374)

One `CleanupEnv` carries the oracle outcome of each of the six privileged
commands run by one cleanup invocation, in source order.  Every sub-step
calls `_sudo_cmd` with its default `check=False`; `time.sleep` and the
verbose snapshot are pure I/O. -/

structure CleanupEnv where
  pkillTerm : ExecOutcome
  pkillKill : ExecOutcome
  dnsFlush : ExecOutcome
  mdnsHup : ExecOutcome
  routeDel0 : ExecOutcome
  routeDel128 : ExecOutcome

/-- Embeds `_kill_openvpn` (lines 352-356). -/
def kill_openvpn (e : CleanupEnv) : Except String Unit :=
  (sudoCmd e.pkillTerm false "cleanup-pkill-term").bind fun _ =>
  (sudoCmd e.pkillKill false "cleanup-pkill-kill").bind fun _ =>
  .ok ()

/-- Embeds `_flush_dns` (lines 347-349). -/
def flush_dns (e : CleanupEnv) : Except String Unit :=
  (sudoCmd e.dnsFlush false "cleanup-dnsflush").bind fun _ =>
  (sudoCmd e.mdnsHup false "cleanup-mdns").bind fun _ =>
  .ok ()

/-- Embeds `_delete_def1_routes` (lines 330-344). -/
def delete_def1_routes (e : CleanupEnv) : Except String Unit :=
  (sudoCmd e.routeDel0 false "cleanup-route-0/1").bind fun _ =>
  (sudoCmd e.routeDel128 false "cleanup-route-128/1").bind fun _ =>
  .ok ()

/-- Embeds `_best_effort_cleanup` (lines 359-374): the `try` block runs the three
sub-steps in order; a `RuntimeError` raised inside (only possible from a
`check=True` runner call) is caught and reported as `cleanup-failed`. -/
def best_effort_cleanup (e : CleanupEnv) : Bool × String :=
  match (kill_openvpn e).bind fun _ =>
        (flush_dns e).bind fun _ => delete_def1_routes e with
  | .ok _ => (true, "cleanup-ok")
  | .error msg => (false, "cleanup-failed: " ++ msg)

/-! ## Connection supervisor (`open_vpn`, lines 381-528)

The process handle returned on success. -/

structure ProcHandle where
  pid : Nat
  deriving Repr, DecidableEq

/-- Embeds `OpenVpnResult` (lines 20-24). -/
structure OpenVpnResult where
  ok : Bool
  proc : Option ProcHandle
  reason : String
  deriving Repr, DecidableEq

/-- One iteration of the `WAIT_INIT` polling loop observes, in this order:
`init_event.is_set()`, `proc.poll()`, and whether the monotonic clock passed
the deadline.  `exitedSet` is the watcher's exit event at that instant (never
read by the source loop) and `tailSnap` is what `watcher.tail()` would return
at that instant. -/
structure WaitObs where
  initSet : Bool
  exitedSet : Bool
  pollRc : Option Int
  deadlineReached : Bool
  tailSnap : String
  deriving Repr, DecidableEq

inductive WaitStep where
  | success
  | exitedEarly (rc : Int)
  | timeout
  | keepPolling
  deriving Repr, DecidableEq

/-- The body of the `while True` loop (lines 453-477), one iteration:
`if init_event.is_set(): break`, then `rc = proc.poll()`, then the deadline
comparison, else `time.sleep(0.05)` and another round. -/
def waitInitStep (o : WaitObs) : WaitStep :=
  if o.initSet then .success
  else
    match o.pollRc with
    | some rc => .exitedEarly rc
    | none => if o.deadlineReached then .timeout else .keepPolling

inductive WaitOutcome where
  | initSeen
  | exitedEarly (rc : Int) (tail : String)
  | timedOut (tail : String)
  /-- the observation trace ended with no condition fired (cannot happen in a
  real run: the deadline eventually holds on a monotonic clock). -/
  | exhausted
  deriving Repr, DecidableEq

def waitInitLoop : List WaitObs → WaitOutcome
  | [] => .exhausted
  | o :: rest =>
    match waitInitStep o with
    | .success => .initSeen
    | .exitedEarly rc => .exitedEarly rc o.tailSnap
    | .timeout => .timedOut o.tailSnap
    | .keepPolling => waitInitLoop rest

/-- One iteration of the post-init probe loop (lines 491-515): the loop runs
only while the probe deadline has not passed (modelled by the trace not being
exhausted); each iteration observes `proc.poll()`, then the probe oracle,
and `watcher.tail()`. -/
structure ProbeObs where
  pollRc : Option Int
  net : ProbeNetEnv
  tailSnap : String

inductive ProbeOutcome where
  | ok
  | died (rc : Int) (tail : String)
  | deadline (lastReason : String)

def probeLoop (lastReason : String) : List ProbeObs → ProbeOutcome
  | [] => .deadline lastReason
  | o :: rest =>
    match o.pollRc with
    | some rc => .died rc o.tailSnap
    | none =>
      let pr := (internet_probe_ok true o.net).1
      if pr.1 then .ok else probeLoop pr.2 rest

/-- Externally visible actions of one `open_vpn` run, in order. -/
inductive Ev where
  | cleanup
  | launch
  | exitObserved
  | stop
  deriving Repr, DecidableEq

/-- Oracle for one whole `open_vpn` attempt. -/
structure Env where
  pid : Nat
  cleanupPre : CleanupEnv
  waitTrace : List WaitObs
  cleanupEarly : CleanupEnv
  stopEnvTimeout : ProcModel
  cleanupTimeout : CleanupEnv
  postInitPoll : Option Int
  postInitTail : String
  cleanupAfterInit : CleanupEnv
  probeTrace : List ProbeObs
  cleanupDied : CleanupEnv
  probeFinalTail : String
  stopEnvProbe : ProcModel
  cleanupProbeFail : CleanupEnv

/-- Result of one `open_vpn` call together with an audit of the attempt:
whether the process was launched, whether it is certainly not running when
the call returns (`stoppedOrExited`, meaningful when `launched`), whether the
cleanup routine ran after the launch, and the ordered list of externally
visible actions. -/
structure RunOutcome where
  result : Option OpenVpnResult
  launched : Bool
  stoppedOrExited : Bool
  cleanupAfterLaunch : Bool
  events : List Ev

/-- The `PROBE` phase (lines 488-526): on probe success the live handle is
returned; on process death cleanup runs; on deadline the stopper then cleanup
run. -/
def open_vpn_probe (env : Env) : RunOutcome :=
  match probeLoop "probe-not-run" env.probeTrace with
  | .ok =>
    ⟨some ⟨true, some ⟨env.pid⟩, "initialized+probe-ok"⟩,
      true, false, false, [.launch]⟩
  | .died rc tail =>
    let _ := best_effort_cleanup env.cleanupDied
    ⟨some ⟨false, none, "died-during-probe rc=" ++ toString rc ++
        "\nTAIL:\n" ++ tail⟩,
      true, true, true, [.launch, .exitObserved, .cleanup]⟩
  | .deadline lastReason =>
    let s := stop_process env.stopEnvProbe
    let _ := best_effort_cleanup env.cleanupProbeFail
    ⟨some ⟨false, none, "init-seen-but-probe-failed: " ++ lastReason ++
        "; stopped rc=" ++ toString s.rc ++ "\nTAIL:\n" ++ env.probeFinalTail⟩,
      true, !s.alive, true, [.launch, .stop, .cleanup]⟩

/-- The `POST_INIT_CHECK` phase (lines 480-486) and the probe-disabled
shortcut (line 528). -/
def open_vpn_post_init (post_init_probe : Bool) (env : Env) : RunOutcome :=
  match env.postInitPoll with
  | some rc =>
    let _ := best_effort_cleanup env.cleanupAfterInit
    ⟨some ⟨false, none, "exited-after-init rc=" ++ toString rc ++
        "\nTAIL:\n" ++ env.postInitTail⟩,
      true, true, true, [.launch, .exitObserved, .cleanup]⟩
  | none =>
    if post_init_probe then open_vpn_probe env
    else ⟨some ⟨true, some ⟨env.pid⟩, "initialized"⟩, true, false, false, [.launch]⟩

/-- Everything after the `subprocess.Popen` launch (lines 429-528): the
`WAIT_INIT` loop and its two failure exits, then the later phases. -/
def open_vpn_after_launch (post_init_probe : Bool) (env : Env) : RunOutcome :=
  match waitInitLoop env.waitTrace with
  | .exhausted => ⟨none, true, false, false, [.launch]⟩
  | .exitedEarly rc tail =>
    let _ := best_effort_cleanup env.cleanupEarly
    ⟨some ⟨false, none, "openvpn-exited-early rc=" ++ toString rc ++
        "\nTAIL:\n" ++ tail⟩,
      true, true, true, [.launch, .exitObserved, .cleanup]⟩
  | .timedOut tail =>
    let s := stop_process env.stopEnvTimeout
    let _ := best_effort_cleanup env.cleanupTimeout
    ⟨some ⟨false, none, "timeout-waiting-init final_rc=" ++ toString s.rc ++
        "\nTAIL:\n" ++ tail⟩,
      true, !s.alive, true, [.launch, .stop, .cleanup]⟩
  | .initSeen => open_vpn_post_init post_init_probe env

def preEv (pre_cleanup : Bool) : List Ev :=
  if pre_cleanup then [.cleanup] else []

/-- Embeds `open_vpn` (lines 381-528).  The baseline public-IP lookup is diagnostic
I/O.  With `pre_cleanup` set, the cleanup routine runs first and a `False`
outcome aborts before launching; then the process is started (`Popen`) and
the phases above run. -/
def open_vpn (pre_cleanup post_init_probe : Bool) (env : Env) : RunOutcome :=
  if pre_cleanup && !(best_effort_cleanup env.cleanupPre).1 then
    ⟨some ⟨false, none, (best_effort_cleanup env.cleanupPre).2⟩,
      false, false, false, [.cleanup]⟩
  else
    let o := open_vpn_after_launch post_init_probe env
    { o with events := preEv pre_cleanup ++ o.events }

/-- Embeds `close_vpn` (lines 531-534): stop, then cleanup, return the exit status. -/
def close_vpn (p : ProcModel) (e : CleanupEnv) : Int :=
  let rc := (stop_process p).rc
  let _ := best_effort_cleanup e
  rc

/-! ## Helper lemmas -/

/-- The value `_run_cmd` returns in non-`check` mode. -/
def runCmdVal : ExecOutcome → Int × String
  | .completed rc out => (rc, out)
  | .timedOut collected => (124, collected ++ "\n[TIMEOUT]\n")
  | .startFailed msg => (127, "[EXCEPTION] " ++ msg ++ "\n")

lemma runCmd_false_ok (o : ExecOutcome) (label : String) :
    runCmd o false label = .ok (runCmdVal o) := by
  cases o <;> rfl

lemma best_effort_cleanup_eq (e : CleanupEnv) :
    best_effort_cleanup e = (true, "cleanup-ok") := by
  simp [best_effort_cleanup, kill_openvpn, flush_dns, delete_def1_routes,
    sudoCmd, runCmd_false_ok, Except.bind]

lemma stop_process_alive (p : ProcModel) : (stop_process p).alive = false := by
  unfold stop_process
  rcases p.initialPoll with _ | rc
  · rcases h1 : p.waitIntRc with _ | rc1
    · rcases h2 : p.waitTermRc with _ | rc2 <;> simp [h1, h2]
    · simp [h1]
  · rfl

lemma data_app (s t : String) : (s ++ t).data = s.data ++ t.data := rfl

lemma take_one_append {α : Type} (l1 l2 : List α) (h : 1 ≤ l1.length) :
    (l1 ++ l2).take 1 = l1.take 1 := by
  cases l1 with
  | nil => simp at h
  | cons a as => simp

lemma not_beginsWith_of_ne_head (s q : String)
    (hs : s.data.take 1 ≠ q.data.take 1) (hq : 1 ≤ q.data.length) :
    ¬ beginsWith s q := by
  rintro ⟨t, rfl⟩
  exact hs (by rw [data_app]; exact take_one_append q.data t.data hq)

lemma take_one_app3 (a b c : String) (ha : 1 ≤ a.data.length) :
    (a ++ b ++ c).data.take 1 = a.data.take 1 := by
  rw [data_app, data_app, List.append_assoc]
  exact take_one_append a.data (b.data ++ c.data) ha

/-! Watcher buffer lemmas. -/

lemma slice_last_length_of_le {α : Type} (n : Nat) (l : List α)
    (hn : n ≠ 0) (h : n ≤ l.length) : (slice_last n l).length = n := by
  simp [slice_last, hn, List.length_drop]
  omega

lemma watcherPush_lines (n : Nat) (needle : String) (st : WatcherState)
    (line : String) :
    (watcherPush n needle st line).lines =
      if (st.lines ++ [line]).length > n * 2 then
        slice_last n (st.lines ++ [line])
      else st.lines ++ [line] := rfl

lemma watcherPush_length_le (n : Nat) (needle : String) (hn : 1 ≤ n)
    (st : WatcherState) (line : String) (h : st.lines.length ≤ 2 * n) :
    (watcherPush n needle st line).lines.length ≤ 2 * n := by
  rw [watcherPush_lines]
  by_cases hc : (st.lines ++ [line]).length > n * 2
  · rw [if_pos hc]
    rw [slice_last_length_of_le n _ (by omega)]
    · omega
    · simp [List.length_append] at hc ⊢
      omega
  · rw [if_neg hc]
    simp [List.length_append] at hc ⊢
    omega

lemma watcherFold_length_le (n : Nat) (needle : String) (hn : 1 ≤ n) :
    ∀ (input : List String) (st : WatcherState), st.lines.length ≤ 2 * n →
      ((input.foldl (watcherPush n needle) st).lines.length ≤ 2 * n)
  | [], _, h => h
  | line :: rest, st, h =>
    watcherFold_length_le n needle hn rest _
      (watcherPush_length_le n needle hn st line h)

/-! `WAIT_INIT` loop lemmas. -/

lemma waitInitStep_exited_irrel (o : WaitObs) (b : Bool) :
    waitInitStep { o with exitedSet := b } = waitInitStep o := rfl

lemma waitInitLoop_exited_irrel (b : Bool) (tr : List WaitObs) :
    waitInitLoop (tr.map fun o => { o with exitedSet := b }) =
      waitInitLoop tr := by
  induction tr with
  | nil => rfl
  | cons o rest ih =>
    simp only [List.map_cons, waitInitLoop, waitInitStep_exited_irrel]
    cases waitInitStep o <;> simp [ih]

lemma open_vpn_skips_pre_fail (pre post : Bool) (env : Env) :
    open_vpn pre post env =
      { open_vpn_after_launch post env with
        events := preEv pre ++ (open_vpn_after_launch post env).events } := by
  simp [open_vpn, best_effort_cleanup_eq]

lemma open_vpn_result_eq (pre post : Bool) (env : Env) :
    (open_vpn pre post env).result = (open_vpn_after_launch post env).result := by
  rw [open_vpn_skips_pre_fail]

lemma open_vpn_probe_result (env : Env) (r : OpenVpnResult)
    (h : (open_vpn_probe env).result = some r) :
    (∃ (rc : Int) (tl : String), r = ⟨false, none,
        "died-during-probe rc=" ++ toString rc ++ "\nTAIL:\n" ++ tl⟩) ∨
    (∃ lr, r = ⟨false, none,
        "init-seen-but-probe-failed: " ++ lr ++ "; stopped rc=" ++
          toString (stop_process env.stopEnvProbe).rc ++ "\nTAIL:\n" ++
          env.probeFinalTail⟩) ∨
    r = ⟨true, some ⟨env.pid⟩, "initialized+probe-ok"⟩ := by
  unfold open_vpn_probe at h
  rcases hq : probeLoop "probe-not-run" env.probeTrace with _ | ⟨rc, tl⟩ | lr <;>
    rw [hq] at h
  · exact Or.inr (Or.inr (Option.some.inj h).symm)
  · exact Or.inl ⟨rc, tl, (Option.some.inj h).symm⟩
  · exact Or.inr (Or.inl ⟨lr, (Option.some.inj h).symm⟩)

lemma open_vpn_post_init_result (post : Bool) (env : Env) (r : OpenVpnResult)
    (h : (open_vpn_post_init post env).result = some r) :
    (∃ rc : Int, r = ⟨false, none, "exited-after-init rc=" ++ toString rc ++
        "\nTAIL:\n" ++ env.postInitTail⟩) ∨
    ((open_vpn_probe env).result = some r ∧ post = true) ∨
    r = ⟨true, some ⟨env.pid⟩, "initialized"⟩ := by
  unfold open_vpn_post_init at h
  rcases hp : env.postInitPoll with _ | rc <;> rw [hp] at h
  · cases post
    · exact Or.inr (Or.inr (Option.some.inj h).symm)
    · exact Or.inr (Or.inl ⟨h, rfl⟩)
  · exact Or.inl ⟨rc, (Option.some.inj h).symm⟩

lemma open_vpn_after_launch_result (post : Bool) (env : Env) (r : OpenVpnResult)
    (h : (open_vpn_after_launch post env).result = some r) :
    (∃ rc tl, waitInitLoop env.waitTrace = .exitedEarly rc tl ∧
        r = ⟨false, none, "openvpn-exited-early rc=" ++ toString rc ++
          "\nTAIL:\n" ++ tl⟩) ∨
    (∃ tl, waitInitLoop env.waitTrace = .timedOut tl ∧
        r = ⟨false, none, "timeout-waiting-init final_rc=" ++
          toString (stop_process env.stopEnvTimeout).rc ++ "\nTAIL:\n" ++ tl⟩) ∨
    (waitInitLoop env.waitTrace = .initSeen ∧
        (open_vpn_post_init post env).result = some r) := by
  unfold open_vpn_after_launch at h
  rcases hw : waitInitLoop env.waitTrace with _ | ⟨rc, tl⟩ | tl | _ <;> rw [hw] at h
  · exact Or.inr (Or.inr ⟨rfl, h⟩)
  · exact Or.inl ⟨rc, tl, rfl, (Option.some.inj h).symm⟩
  · exact Or.inr (Or.inl ⟨tl, rfl, (Option.some.inj h).symm⟩)
  · exact Option.noConfusion h

/-- All result values one `open_vpn` call can produce. -/
lemma open_vpn_result_cases (pre post : Bool) (env : Env) (r : OpenVpnResult)
    (h : (open_vpn pre post env).result = some r) :
    (∃ (rc : Int) (tl : String), r = ⟨false, none, "openvpn-exited-early rc=" ++ toString rc ++
        "\nTAIL:\n" ++ tl⟩) ∨
    (∃ (rc : Int) (tl : String), r = ⟨false, none, "timeout-waiting-init final_rc=" ++
        toString rc ++ "\nTAIL:\n" ++ tl⟩) ∨
    (∃ (rc : Int) (tl : String), r = ⟨false, none, "exited-after-init rc=" ++ toString rc ++
        "\nTAIL:\n" ++ tl⟩) ∨
    (∃ (rc : Int) (tl : String), r = ⟨false, none, "died-during-probe rc=" ++ toString rc ++
        "\nTAIL:\n" ++ tl⟩) ∨
    (∃ (lr : String) (rc : Int) (tl : String), r = ⟨false, none, "init-seen-but-probe-failed: " ++ lr ++
        "; stopped rc=" ++ toString rc ++ "\nTAIL:\n" ++ tl⟩) ∨
    r = ⟨true, some ⟨env.pid⟩, "initialized+probe-ok"⟩ ∨
    r = ⟨true, some ⟨env.pid⟩, "initialized"⟩ := by
  rw [open_vpn_result_eq] at h
  rcases open_vpn_after_launch_result post env r h with
    ⟨rc, tl, _, hr⟩ | ⟨tl, _, hr⟩ | ⟨_, hpost⟩
  · exact Or.inl ⟨rc, tl, hr⟩
  · exact Or.inr (Or.inl ⟨_, tl, hr⟩)
  · rcases open_vpn_post_init_result post env r hpost with
      ⟨rc, hr⟩ | ⟨hprobe, _⟩ | hr
    · exact Or.inr (Or.inr (Or.inl ⟨rc, _, hr⟩))
    · rcases open_vpn_probe_result env r hprobe with
        ⟨rc, tl, hr⟩ | ⟨lr, hr⟩ | hr
      · exact Or.inr (Or.inr (Or.inr (Or.inl ⟨rc, tl, hr⟩)))
      · exact Or.inr (Or.inr (Or.inr (Or.inr (Or.inl ⟨lr, _, _, hr⟩))))
      · exact Or.inr (Or.inr (Or.inr (Or.inr (Or.inr (Or.inl hr)))))
    · exact Or.inr (Or.inr (Or.inr (Or.inr (Or.inr (Or.inr hr)))))

/-! String head helpers used to show no reason begins with `cleanup-failed`. -/

lemma str_app_len (a b : String) :
    (a ++ b).data.length = a.data.length + b.data.length := by
  rw [data_app, List.length_append]

lemma take_one_str_app (a b : String) (ha : 1 ≤ a.data.length) :
    (a ++ b).data.take 1 = a.data.take 1 := by
  rw [data_app]; exact take_one_append _ _ ha

lemma take_one_app4 (a b c d : String) (ha : 1 ≤ a.data.length) :
    (a ++ b ++ c ++ d).data.take 1 = a.data.take 1 := by
  have h2 : 1 ≤ (a ++ b).data.length := by rw [str_app_len]; omega
  have h3 : 1 ≤ (a ++ b ++ c).data.length := by rw [str_app_len]; omega
  rw [take_one_str_app _ d h3, take_one_str_app _ c h2, take_one_str_app _ b ha]

lemma take_one_app6 (a b c d e f : String) (ha : 1 ≤ a.data.length) :
    (a ++ b ++ c ++ d ++ e ++ f).data.take 1 = a.data.take 1 := by
  have h2 : 1 ≤ (a ++ b).data.length := by rw [str_app_len]; omega
  have h3 : 1 ≤ (a ++ b ++ c).data.length := by rw [str_app_len]; omega
  have h4 : 1 ≤ (a ++ b ++ c ++ d).data.length := by rw [str_app_len]; omega
  have h5 : 1 ≤ (a ++ b ++ c ++ d ++ e).data.length := by rw [str_app_len]; omega
  rw [take_one_str_app _ f h5, take_one_str_app _ e h4, take_one_str_app _ d h3,
    take_one_str_app _ c h2, take_one_str_app _ b ha]

/-! Concrete sample oracles, used by witnesses. -/

def cleanupEnvAllOk : CleanupEnv :=
  ⟨.completed 0 "", .completed 0 "", .completed 0 "", .completed 0 "",
    .completed 0 "", .completed 0 ""⟩

def netEnvOk : ProbeNetEnv :=
  { routeRc := 0, routeOut := "  interface: utun0\n",
    tcpOk := fun _ _ => true, elapsedAt := fun _ => "0.00" }

def procStubborn : ProcModel :=
  ⟨none, none, none, 9, true, true, true, true, true, true⟩

def envProbeOk : Env :=
  { pid := 1, cleanupPre := cleanupEnvAllOk,
    waitTrace := [⟨true, false, none, false, ""⟩],
    cleanupEarly := cleanupEnvAllOk, stopEnvTimeout := procStubborn,
    cleanupTimeout := cleanupEnvAllOk, postInitPoll := none,
    postInitTail := "", cleanupAfterInit := cleanupEnvAllOk,
    probeTrace := [{ pollRc := none, net := netEnvOk, tailSnap := "" }],
    cleanupDied := cleanupEnvAllOk, probeFinalTail := "",
    stopEnvProbe := procStubborn, cleanupProbeFail := cleanupEnvAllOk }

/-! ## Claims -/

/-- Claim C9: `_run_cmd` with `check=False` never raises; on timeout it
returns exit code 124 with the partial output preserved and suffixed by the
`[TIMEOUT]` marker; on a failure to even start the command it returns the
distinct sentinel 127 with output tagged `[EXCEPTION]`. -/
theorem runCmd_nocheck_contract :
    (∀ (o : ExecOutcome) (label : String),
        ∃ v, runCmd o false label = Except.ok v) ∧
    (∀ (collected label : String),
        runCmd (ExecOutcome.timedOut collected) false label =
          Except.ok (124, collected ++ "\n[TIMEOUT]\n")) ∧
    (∀ (msg label : String),
        runCmd (ExecOutcome.startFailed msg) false label =
          Except.ok (127, "[EXCEPTION] " ++ msg ++ "\n")) ∧
    (124 : Int) ≠ 127 := by
  exact ⟨fun o label => ⟨runCmdVal o, runCmd_false_ok o label⟩,
    fun _ _ => rfl, fun _ _ => rfl, by decide⟩

/-- Claim C2: `stop_process` returns the exit status immediately, with no
signal, when the process has already exited; otherwise it escalates
SIGINT, then SIGTERM, then SIGKILL, each harsher step only after the previous
grace-period wait timed out, and every return path follows a `poll`/`wait`
that reported the process exited, so it never returns while the process is
alive. -/
theorem stop_process_contract (p : ProcModel) :
    (∀ rc, p.initialPoll = some rc →
        stop_process p = ⟨rc, [], [], false⟩) ∧
    (p.initialPoll = none →
        (stop_process p).attempted =
          if p.waitIntRc.isSome then [Sig.int]
          else if p.waitTermRc.isSome then [Sig.int, Sig.term]
          else [Sig.int, Sig.term, Sig.kill]) ∧
    (p.initialPoll = none → p.waitIntRc = none → p.waitTermRc = none →
        (stop_process p).rc = p.finalWaitRc) ∧
    (stop_process p).alive = false := by
  refine ⟨?_, ?_, ?_, stop_process_alive p⟩
  · intro rc h; unfold stop_process; rw [h]
  · intro h; unfold stop_process; rw [h]
    rcases h1 : p.waitIntRc with _ | rc1
    · rcases h2 : p.waitTermRc with _ | rc2 <;> simp [h1, h2]
    · simp [h1]
  · intro h h1 h2; unfold stop_process; rw [h, h1, h2]

/-- Witness for `stop_process_contract` at concrete process oracles. -/
theorem stop_process_contract_witness :
    stop_process ⟨some 7, none, none, 0, true, true, true, true, true, true⟩ =
      ⟨7, [], [], false⟩ ∧
    (stop_process procStubborn).attempted = [Sig.int, Sig.term, Sig.kill] ∧
    (stop_process procStubborn).rc = 9 ∧
    (stop_process procStubborn).alive = false := by
  refine ⟨(stop_process_contract _).1 7 rfl, ?_, ?_,
    (stop_process_contract procStubborn).2.2.2⟩
  · have h := (stop_process_contract procStubborn).2.1 rfl
    simpa using h
  · exact (stop_process_contract procStubborn).2.2.1 rfl rfl rfl

/-- Claim C3: `_best_effort_cleanup` always returns `(True, "cleanup-ok")`
(its `cleanup-failed` branch is unreachable because every sub-step runs the
command runner with `check=False`, which never raises); two successive
invocations both return ok, and no `open_vpn` result has a reason beginning
with `cleanup-failed`. -/
theorem cleanup_infallible_contract :
    (∀ e : CleanupEnv, best_effort_cleanup e = (true, "cleanup-ok")) ∧
    (∀ e1 e2 : CleanupEnv,
        (best_effort_cleanup e1).1 = true ∧ (best_effort_cleanup e2).1 = true) ∧
    (∀ (pre post : Bool) (env : Env) (r : OpenVpnResult),
        (open_vpn pre post env).result = some r →
          ¬ beginsWith r.reason "cleanup-failed") := by
  refine ⟨best_effort_cleanup_eq, ?_, ?_⟩
  · intro e1 e2
    rw [best_effort_cleanup_eq, best_effort_cleanup_eq]
    exact ⟨rfl, rfl⟩
  · intro pre post env r h
    rcases open_vpn_result_cases pre post env r h with
      ⟨rc, tl, rfl⟩ | ⟨rc, tl, rfl⟩ | ⟨rc, tl, rfl⟩ | ⟨rc, tl, rfl⟩ |
      ⟨lr, rc, tl, rfl⟩ | rfl | rfl
    · exact not_beginsWith_of_ne_head _ _
        (by rw [take_one_app4 _ _ _ _ (by decide)]; decide) (by decide)
    · exact not_beginsWith_of_ne_head _ _
        (by rw [take_one_app4 _ _ _ _ (by decide)]; decide) (by decide)
    · exact not_beginsWith_of_ne_head _ _
        (by rw [take_one_app4 _ _ _ _ (by decide)]; decide) (by decide)
    · exact not_beginsWith_of_ne_head _ _
        (by rw [take_one_app4 _ _ _ _ (by decide)]; decide) (by decide)
    · exact not_beginsWith_of_ne_head _ _
        (by rw [take_one_app6 _ _ _ _ _ _ (by decide)]; decide) (by decide)
    · refine not_beginsWith_of_ne_head _ _ ?_ (by decide)
      show ("initialized+probe-ok").data.take 1 ≠ ("cleanup-failed").data.take 1
      decide
    · refine not_beginsWith_of_ne_head _ _ ?_ (by decide)
      show ("initialized").data.take 1 ≠ ("cleanup-failed").data.take 1
      decide

/-- Witness for `cleanup_infallible_contract`: a fully successful connect
attempt, whose reason does not begin with `cleanup-failed`. -/
theorem cleanup_infallible_contract_witness :
    best_effort_cleanup cleanupEnvAllOk = (true, "cleanup-ok") ∧
    ¬ beginsWith "initialized+probe-ok" "cleanup-failed" := by
  refine ⟨cleanup_infallible_contract.1 cleanupEnvAllOk, ?_⟩
  exact cleanup_infallible_contract.2.2 true true envProbeOk
    ⟨true, some ⟨1⟩, "initialized+probe-ok"⟩ rfl

/-- Claim C7: with `require_vpn_route` set, `_internet_probe_ok` first checks
the route to the fixed IP `1.1.1.1` and fails fast with
`route-to-1.1.1.1-not-utun` without attempting any TCP connection; otherwise
it tries the two distinct targets in order, stops at the first failure with a
reason naming the target and the elapsed time, and succeeds only when all
targets succeed. -/
theorem internet_probe_contract (env : ProbeNetEnv) :
    (route_uses_utun "1.1.1.1" env.routeRc env.routeOut = false →
        internet_probe_ok true env = ((false, "route-to-1.1.1.1-not-utun"), [])) ∧
    (route_uses_utun "1.1.1.1" env.routeRc env.routeOut = true →
      (env.tcpOk "api.ipify.org" 443 = false →
          internet_probe_ok true env =
            ((false, "tcp-connect-failed api.ipify.org:443 after " ++
                env.elapsedAt 0 ++ "s"), [("api.ipify.org", 443)])) ∧
      (env.tcpOk "api.ipify.org" 443 = true → env.tcpOk "1.1.1.1" 443 = false →
          internet_probe_ok true env =
            ((false, "tcp-connect-failed 1.1.1.1:443 after " ++
                env.elapsedAt 1 ++ "s"),
              [("api.ipify.org", 443), ("1.1.1.1", 443)]))) ∧
    ((internet_probe_ok true env).1.1 = true ↔
        route_uses_utun "1.1.1.1" env.routeRc env.routeOut = true ∧
        probeTargets.all (fun t => env.tcpOk t.1 t.2) = true) ∧
    probeTargets.length = 2 ∧
    (("api.ipify.org", 443) : String × Nat) ∈ probeTargets ∧
    (("1.1.1.1", 443) : String × Nat) ∈ probeTargets ∧
    (("api.ipify.org", 443) : String × Nat) ≠ ("1.1.1.1", 443) := by
  refine ⟨?_, ?_, ?_, rfl, by decide, by decide, by decide⟩
  · intro hr
    unfold internet_probe_ok
    rw [hr]
    rfl
  · intro hr
    constructor
    · intro h1
      unfold internet_probe_ok
      rw [hr]
      show probeAttempts env probeTargets 0 = _
      simp only [probeTargets, probeAttempts]
      rw [h1]
      rfl
    · intro h1 h2
      unfold internet_probe_ok
      rw [hr]
      show probeAttempts env probeTargets 0 = _
      simp only [probeTargets, probeAttempts]
      rw [h1, h2]
      rfl
  · cases hr : route_uses_utun "1.1.1.1" env.routeRc env.routeOut <;>
      cases h1 : env.tcpOk "api.ipify.org" 443 <;>
      cases h2 : env.tcpOk "1.1.1.1" 443 <;>
      simp [internet_probe_ok, probeAttempts, probeTargets, hr, h1, h2]

def netEnvNoRoute : ProbeNetEnv :=
  { routeRc := 1, routeOut := "", tcpOk := fun _ _ => true,
    elapsedAt := fun _ => "0.10" }

def netEnvTcpFail : ProbeNetEnv :=
  { routeRc := 0, routeOut := "  interface: utun1\n",
    tcpOk := fun _ _ => false, elapsedAt := fun _ => "0.50" }

/-- Witness for `internet_probe_contract`: the fail-fast route branch and the
first-target failure branch at concrete oracles. -/
theorem internet_probe_contract_witness :
    internet_probe_ok true netEnvNoRoute =
      ((false, "route-to-1.1.1.1-not-utun"), []) ∧
    internet_probe_ok true netEnvTcpFail =
      ((false, "tcp-connect-failed api.ipify.org:443 after 0.50s"),
        [("api.ipify.org", 443)]) := by
  constructor
  · exact (internet_probe_contract netEnvNoRoute).1 rfl
  · exact ((internet_probe_contract netEnvTcpFail).2.1 rfl).1 rfl

/-- Claim C8 counterexample: with `keep_last_n = 0` the Python trim
`self.lines[-0:]` is the whole list, so the trim never removes anything and
the buffer exceeds `2 × keep_last_n` already after two lines. -/
theorem watcher_tail_bound_cx :
    ¬ ((watcherRun 0 "x" ["a", "b"]).lines.length ≤ 2 * 0) := by decide

/-- Claim C8 (amended): for `keep_last_n ≥ 1` (in particular the default 300
used by `open_vpn`), the buffer length never exceeds `2 × keep_last_n` at any
observation point, and immediately after any trim the length is exactly
`keep_last_n`. -/
theorem watcher_tail_bound (n : Nat) (needle : String) (hn : 1 ≤ n) :
    (∀ input : List String,
        (watcherRun n needle input).lines.length ≤ 2 * n) ∧
    (∀ (st : WatcherState) (line : String), st.lines.length ≤ 2 * n →
        n * 2 < (st.lines ++ [line]).length →
        (watcherPush n needle st line).lines.length = n) := by
  constructor
  · intro input
    show ((input.foldl (watcherPush n needle) ⟨[], false, false⟩)).lines.length ≤ 2 * n
    exact watcherFold_length_le n needle hn input _ (by simp)
  · intro st line h hgt
    rw [watcherPush_lines, if_pos hgt]
    apply slice_last_length_of_le n _ (by omega)
    simp only [List.length_append, List.length_cons, List.length_nil] at hgt ⊢
    omega

/-- Witness for `watcher_tail_bound` at `keep_last_n = 1`. -/
theorem watcher_tail_bound_witness :
    (watcherRun 1 "x" ["a", "b", "c"]).lines.length ≤ 2 * 1 ∧
    (watcherPush 1 "x" ⟨["a", "b"], false, false⟩ "c").lines.length = 1 := by
  constructor
  · exact (watcher_tail_bound 1 "x" (by decide)).1 ["a", "b", "c"]
  · exact (watcher_tail_bound 1 "x" (by decide)).2 ⟨["a", "b"], false, false⟩ "c"
      (by decide) (by decide)

/-- Claim C10: `tail()` returns the join of the most recent `keep_last_n`
buffered lines; whenever the buffer length is within its `2 × keep_last_n`
bound, that slice has at most `keep_last_n` lines and is a suffix of the
buffer, so every diagnostic tail embedded in a failure reason has at most
`keep_last_n` lines. -/
theorem watcher_tail_at_most (n : Nat) (st : WatcherState)
    (h : st.lines.length ≤ 2 * n) :
    watcherTail n st = String.join (slice_last n st.lines) ∧
    (slice_last n st.lines).length ≤ n ∧
    ∃ pre, st.lines = pre ++ slice_last n st.lines := by
  refine ⟨rfl, ?_, ?_⟩
  · by_cases hn : n = 0
    · subst hn
      have hnil : st.lines = [] := List.length_eq_zero.mp (by omega)
      simp [slice_last, hnil]
    · rw [slice_last, if_neg hn, List.length_drop]
      omega
  · by_cases hn : n = 0
    · have hnil : st.lines = [] := List.length_eq_zero.mp (by omega)
      exact ⟨[], by simp [slice_last, hnil]⟩
    · exact ⟨st.lines.take (st.lines.length - n), by
        rw [slice_last, if_neg hn, List.take_append_drop]⟩

/-- Witness for `watcher_tail_at_most` at a concrete watcher state. -/
theorem watcher_tail_at_most_witness :
    watcherTail 2 ⟨["a", "b", "c"], false, true⟩ =
      String.join (slice_last 2 ["a", "b", "c"]) ∧
    (slice_last 2 (["a", "b", "c"] : List String)).length ≤ 2 ∧
    ∃ pre, (["a", "b", "c"] : List String) =
      pre ++ slice_last 2 (["a", "b", "c"] : List String) :=
  watcher_tail_at_most 2 ⟨["a", "b", "c"], false, true⟩ (by decide)

/-- Claim C4 counterexample: in an iteration where the ready marker has been
seen and the process has also already exited (a same-tick success-then-exit
race), the loop classifies the iteration as success: the success-check runs
before the exit-check, so the claimed priority (exit-check before
deadline-check before success-check) does not hold. -/
theorem wait_init_order_cx :
    waitInitStep ⟨true, false, some 0, true, ""⟩ = WaitStep.success ∧
    waitInitStep ⟨true, false, some 0, true, ""⟩ ≠ WaitStep.exitedEarly 0 := by
  exact ⟨rfl, by decide⟩

/-- Claim C4 (amended): each `WAIT_INIT` iteration checks the success (ready)
condition first, then the exit condition, then the deadline — the exit-check
does precede the deadline-check, but the success-check precedes both. -/
theorem wait_init_check_order (o : WaitObs) :
    (o.initSet = true → waitInitStep o = WaitStep.success) ∧
    (∀ rc : Int, o.initSet = false → o.pollRc = some rc →
        waitInitStep o = WaitStep.exitedEarly rc) ∧
    (o.initSet = false → o.pollRc = none → o.deadlineReached = true →
        waitInitStep o = WaitStep.timeout) ∧
    (o.initSet = false → o.pollRc = none → o.deadlineReached = false →
        waitInitStep o = WaitStep.keepPolling) := by
  refine ⟨fun h => by simp [waitInitStep, h],
    fun rc h1 h2 => by simp [waitInitStep, h1, h2],
    fun h1 h2 h3 => by simp [waitInitStep, h1, h2, h3],
    fun h1 h2 h3 => by simp [waitInitStep, h1, h2, h3]⟩

/-- Witness for `wait_init_check_order`: exit and deadline both hold, exit
wins. -/
theorem wait_init_check_order_witness :
    waitInitStep ⟨false, false, some 3, true, ""⟩ = WaitStep.exitedEarly 3 :=
  (wait_init_check_order ⟨false, false, some 3, true, ""⟩).2.1 3 rfl rfl

/-- Claim C5 counterexample: in an iteration where the watcher has set its
`exited` flag but `proc.poll()` still returns `None`, the supervisor keeps
polling (the flag is never consulted), while death is detected when `poll`
reports an exit code with the flag unset — so the poll, not the watcher's
`exited` signal, is the liveness check `open_vpn` uses. -/
theorem exited_flag_unused_cx :
    waitInitStep ⟨false, true, none, false, ""⟩ = WaitStep.keepPolling ∧
    waitInitStep ⟨false, false, some 1, false, ""⟩ = WaitStep.exitedEarly 1 :=
  ⟨rfl, rfl⟩

lemma open_vpn_after_launch_exited_irrel (post b : Bool) (env : Env) :
    open_vpn_after_launch post
        { env with waitTrace := env.waitTrace.map fun o => { o with exitedSet := b } } =
      open_vpn_after_launch post env := by
  unfold open_vpn_after_launch
  rw [show ({ env with waitTrace :=
        env.waitTrace.map fun o => { o with exitedSet := b } } : Env).waitTrace =
      env.waitTrace.map (fun o => { o with exitedSet := b }) from rfl]
  rw [waitInitLoop_exited_irrel]
  cases waitInitLoop env.waitTrace <;> rfl

/-- Claim C5 (amended): the supervisor's observable behaviour is invariant
under arbitrary rewriting of the watcher's `exited` flag in the trace — the
flag is never consulted — and unexpected death is detected exactly through
the polled exit status. -/
theorem supervisor_polls_not_exited_flag (pre post b : Bool) (env : Env) :
    open_vpn pre post
        { env with waitTrace := env.waitTrace.map fun o => { o with exitedSet := b } } =
      open_vpn pre post env ∧
    (∀ (o : WaitObs) (rc : Int), o.initSet = false → o.pollRc = some rc →
        waitInitStep o = WaitStep.exitedEarly rc) ∧
    (∀ o : WaitObs, o.initSet = false → o.pollRc = none →
        o.deadlineReached = false → waitInitStep o = WaitStep.keepPolling) := by
  refine ⟨?_, fun o rc h1 h2 => by simp [waitInitStep, h1, h2],
    fun o h1 h2 h3 => by simp [waitInitStep, h1, h2, h3]⟩
  rw [open_vpn_skips_pre_fail, open_vpn_skips_pre_fail,
    open_vpn_after_launch_exited_irrel]

/-- Witness for `supervisor_polls_not_exited_flag` at a concrete attempt. -/
theorem supervisor_polls_not_exited_flag_witness :
    open_vpn true true
        { envProbeOk with waitTrace :=
            envProbeOk.waitTrace.map fun o => { o with exitedSet := true } } =
      open_vpn true true envProbeOk ∧
    waitInitStep ⟨false, false, some 2, false, ""⟩ = WaitStep.exitedEarly 2 := by
  refine ⟨(supervisor_polls_not_exited_flag true true true envProbeOk).1, ?_⟩
  exact (supervisor_polls_not_exited_flag true true true envProbeOk).2.1
    ⟨false, false, some 2, false, ""⟩ 2 rfl rfl

/-! ## C1 and C6: the supervisor's result contract -/

lemma after_launch_exitedEarly (post : Bool) (env : Env) (rc : Int)
    (tl : String) (hw : waitInitLoop env.waitTrace = .exitedEarly rc tl) :
    open_vpn_after_launch post env =
      ⟨some ⟨false, none, "openvpn-exited-early rc=" ++ toString rc ++
          "\nTAIL:\n" ++ tl⟩,
        true, true, true, [.launch, .exitObserved, .cleanup]⟩ := by
  unfold open_vpn_after_launch
  rw [hw]

lemma after_launch_timedOut (post : Bool) (env : Env) (tl : String)
    (hw : waitInitLoop env.waitTrace = .timedOut tl) :
    open_vpn_after_launch post env =
      ⟨some ⟨false, none, "timeout-waiting-init final_rc=" ++
          toString (stop_process env.stopEnvTimeout).rc ++ "\nTAIL:\n" ++ tl⟩,
        true, true, true, [.launch, .stop, .cleanup]⟩ := by
  unfold open_vpn_after_launch
  rw [hw]
  simp [stop_process_alive]

lemma after_launch_initSeen (post : Bool) (env : Env)
    (hw : waitInitLoop env.waitTrace = .initSeen) :
    open_vpn_after_launch post env = open_vpn_post_init post env := by
  unfold open_vpn_after_launch
  rw [hw]

lemma after_launch_exhausted (post : Bool) (env : Env)
    (hw : waitInitLoop env.waitTrace = .exhausted) :
    open_vpn_after_launch post env = ⟨none, true, false, false, [.launch]⟩ := by
  unfold open_vpn_after_launch
  rw [hw]

lemma open_vpn_exitedEarly_eq (pre post : Bool) (env : Env) (rc : Int)
    (tl : String) (hw : waitInitLoop env.waitTrace = .exitedEarly rc tl) :
    open_vpn pre post env =
      ⟨some ⟨false, none, "openvpn-exited-early rc=" ++ toString rc ++
          "\nTAIL:\n" ++ tl⟩,
        true, true, true, preEv pre ++ [.launch, .exitObserved, .cleanup]⟩ := by
  rw [open_vpn_skips_pre_fail, after_launch_exitedEarly post env rc tl hw]

lemma open_vpn_timedOut_eq (pre post : Bool) (env : Env) (tl : String)
    (hw : waitInitLoop env.waitTrace = .timedOut tl) :
    open_vpn pre post env =
      ⟨some ⟨false, none, "timeout-waiting-init final_rc=" ++
          toString (stop_process env.stopEnvTimeout).rc ++ "\nTAIL:\n" ++ tl⟩,
        true, true, true, preEv pre ++ [.launch, .stop, .cleanup]⟩ := by
  rw [open_vpn_skips_pre_fail, after_launch_timedOut post env tl hw]

lemma open_vpn_initSeen_eq (pre post : Bool) (env : Env)
    (hw : waitInitLoop env.waitTrace = .initSeen) :
    open_vpn pre post env =
      { open_vpn_post_init post env with
        events := preEv pre ++ (open_vpn_post_init post env).events } := by
  rw [open_vpn_skips_pre_fail, after_launch_initSeen post env hw]

lemma open_vpn_exhausted_eq (pre post : Bool) (env : Env)
    (hw : waitInitLoop env.waitTrace = .exhausted) :
    open_vpn pre post env = ⟨none, true, false, false, preEv pre ++ [.launch]⟩ := by
  rw [open_vpn_skips_pre_fail, after_launch_exhausted post env hw]

lemma post_init_poll_some (post : Bool) (env : Env) (rc : Int)
    (hp : env.postInitPoll = some rc) :
    open_vpn_post_init post env =
      ⟨some ⟨false, none, "exited-after-init rc=" ++ toString rc ++
          "\nTAIL:\n" ++ env.postInitTail⟩,
        true, true, true, [.launch, .exitObserved, .cleanup]⟩ := by
  unfold open_vpn_post_init
  rw [hp]

lemma post_init_poll_none (post : Bool) (env : Env)
    (hp : env.postInitPoll = none) :
    open_vpn_post_init post env =
      if post then open_vpn_probe env
      else ⟨some ⟨true, some ⟨env.pid⟩, "initialized"⟩, true, false, false,
        [.launch]⟩ := by
  unfold open_vpn_post_init
  rw [hp]

lemma probe_ok_eq (env : Env)
    (hq : probeLoop "probe-not-run" env.probeTrace = .ok) :
    open_vpn_probe env =
      ⟨some ⟨true, some ⟨env.pid⟩, "initialized+probe-ok"⟩, true, false, false,
        [.launch]⟩ := by
  unfold open_vpn_probe
  rw [hq]

lemma probe_died_eq (env : Env) (rc : Int) (tl : String)
    (hq : probeLoop "probe-not-run" env.probeTrace = .died rc tl) :
    open_vpn_probe env =
      ⟨some ⟨false, none, "died-during-probe rc=" ++ toString rc ++
          "\nTAIL:\n" ++ tl⟩,
        true, true, true, [.launch, .exitObserved, .cleanup]⟩ := by
  unfold open_vpn_probe
  rw [hq]

lemma probe_deadline_eq (env : Env) (lr : String)
    (hq : probeLoop "probe-not-run" env.probeTrace = .deadline lr) :
    open_vpn_probe env =
      ⟨some ⟨false, none, "init-seen-but-probe-failed: " ++ lr ++
          "; stopped rc=" ++ toString (stop_process env.stopEnvProbe).rc ++
          "\nTAIL:\n" ++ env.probeFinalTail⟩,
        true, true, true, [.launch, .stop, .cleanup]⟩ := by
  unfold open_vpn_probe
  rw [hq]
  simp [stop_process_alive]

lemma open_vpn_fail_flags (pre post : Bool) (env : Env) (r : OpenVpnResult)
    (h : (open_vpn pre post env).result = some r) (hok : r.ok = false) :
    (open_vpn pre post env).launched = true ∧
    (open_vpn pre post env).stoppedOrExited = true ∧
    (open_vpn pre post env).cleanupAfterLaunch = true := by
  rcases hw : waitInitLoop env.waitTrace with _ | ⟨rc, tl⟩ | tl | _
  · rw [open_vpn_initSeen_eq pre post env hw] at h ⊢
    have h2 : (open_vpn_post_init post env).result = some r := h
    suffices hs : (open_vpn_post_init post env).launched = true ∧
        (open_vpn_post_init post env).stoppedOrExited = true ∧
        (open_vpn_post_init post env).cleanupAfterLaunch = true from hs
    rcases hp : env.postInitPoll with _ | rc2
    · rw [post_init_poll_none post env hp] at h2 ⊢
      cases post
      · rw [(Option.some.inj h2).symm] at hok
        simp at hok
      · have h3 : (open_vpn_probe env).result = some r := h2
        suffices hs2 : (open_vpn_probe env).launched = true ∧
            (open_vpn_probe env).stoppedOrExited = true ∧
            (open_vpn_probe env).cleanupAfterLaunch = true from hs2
        rcases hq : probeLoop "probe-not-run" env.probeTrace with _ | ⟨rc3, tl3⟩ | lr
        · rw [probe_ok_eq env hq] at h3
          rw [(Option.some.inj h3).symm] at hok
          simp at hok
        · rw [probe_died_eq env rc3 tl3 hq]
          exact ⟨rfl, rfl, rfl⟩
        · rw [probe_deadline_eq env lr hq]
          exact ⟨rfl, rfl, rfl⟩
    · rw [post_init_poll_some post env rc2 hp]
      exact ⟨rfl, rfl, rfl⟩
  · rw [open_vpn_exitedEarly_eq pre post env rc tl hw]
    exact ⟨rfl, rfl, rfl⟩
  · rw [open_vpn_timedOut_eq pre post env tl hw]
    exact ⟨rfl, rfl, rfl⟩
  · rw [open_vpn_exhausted_eq pre post env hw] at h
    exact Option.noConfusion h

/-- Claim C1: `open_vpn` (a function, hence producing exactly one result per
attempt) returns `ok = true` iff a process handle is present, and on every
`ok = false` result any launched process has already been stopped (or has
exited) and cleanup has already run by the time the result is returned. -/
theorem connect_result_contract (pre post : Bool) (env : Env)
    (r : OpenVpnResult) (h : (open_vpn pre post env).result = some r) :
    (r.ok = true ↔ r.proc.isSome = true) ∧
    (r.ok = false → (open_vpn pre post env).launched = true →
        (open_vpn pre post env).stoppedOrExited = true ∧
        (open_vpn pre post env).cleanupAfterLaunch = true) := by
  constructor
  · rcases open_vpn_result_cases pre post env r h with
      ⟨rc, tl, rfl⟩ | ⟨rc, tl, rfl⟩ | ⟨rc, tl, rfl⟩ | ⟨rc, tl, rfl⟩ |
      ⟨lr, rc, tl, rfl⟩ | rfl | rfl <;> simp
  · intro hok _
    exact ⟨(open_vpn_fail_flags pre post env r h hok).2.1,
      (open_vpn_fail_flags pre post env r h hok).2.2⟩

def envExitEarly : Env :=
  { envProbeOk with waitTrace := [⟨false, false, some 1, false, "T"⟩] }

def envTimeout : Env :=
  { envProbeOk with waitTrace := [⟨false, false, none, true, "T2"⟩] }

/-- Witness for `connect_result_contract`: a concrete attempt whose process
exits before the marker. -/
theorem connect_result_contract_witness :
    ((⟨false, none, "openvpn-exited-early rc=1\nTAIL:\nT"⟩ : OpenVpnResult).ok = true ↔
        (⟨false, none, "openvpn-exited-early rc=1\nTAIL:\nT"⟩ : OpenVpnResult).proc.isSome = true) ∧
    ((⟨false, none, "openvpn-exited-early rc=1\nTAIL:\nT"⟩ : OpenVpnResult).ok = false →
        (open_vpn true true envExitEarly).launched = true →
        (open_vpn true true envExitEarly).stoppedOrExited = true ∧
        (open_vpn true true envExitEarly).cleanupAfterLaunch = true) :=
  connect_result_contract true true envExitEarly
    ⟨false, none, "openvpn-exited-early rc=1\nTAIL:\nT"⟩ rfl

lemma str_append_assoc (a b c : String) : a ++ b ++ c = a ++ (b ++ c) := by
  cases a with
  | mk x =>
    cases b with
    | mk y =>
      cases c with
      | mk z => exact congrArg String.mk (List.append_assoc x y z)

/-- Claim C6: in `WAIT_INIT`, an early process exit yields (after a silent
cleanup) `ok=False`, `proc=None` and a reason beginning
`openvpn-exited-early rc=<code>` followed by the tail; a deadline expiry runs
the escalating stopper, then cleanup, and yields `ok=False` with a reason
beginning `timeout-waiting-init final_rc=<code>` — the event lists record the
order stopper-then-cleanup. -/
theorem wait_init_failures (pre post : Bool) (env : Env) :
    (∀ (rc : Int) (tl : String),
        waitInitLoop env.waitTrace = .exitedEarly rc tl →
        open_vpn pre post env =
          ⟨some ⟨false, none, "openvpn-exited-early rc=" ++ toString rc ++
              "\nTAIL:\n" ++ tl⟩,
            true, true, true, preEv pre ++ [.launch, .exitObserved, .cleanup]⟩ ∧
        beginsWith ("openvpn-exited-early rc=" ++ toString rc ++ "\nTAIL:\n" ++ tl)
          ("openvpn-exited-early rc=" ++ toString rc)) ∧
    (∀ tl : String, waitInitLoop env.waitTrace = .timedOut tl →
        open_vpn pre post env =
          ⟨some ⟨false, none, "timeout-waiting-init final_rc=" ++
              toString (stop_process env.stopEnvTimeout).rc ++ "\nTAIL:\n" ++ tl⟩,
            true, true, true, preEv pre ++ [.launch, .stop, .cleanup]⟩ ∧
        beginsWith ("timeout-waiting-init final_rc=" ++
            toString (stop_process env.stopEnvTimeout).rc ++ "\nTAIL:\n" ++ tl)
          ("timeout-waiting-init final_rc=" ++
            toString (stop_process env.stopEnvTimeout).rc)) := by
  constructor
  · intro rc tl hw
    exact ⟨open_vpn_exitedEarly_eq pre post env rc tl hw,
      ⟨"\nTAIL:\n" ++ tl, str_append_assoc _ _ _⟩⟩
  · intro tl hw
    exact ⟨open_vpn_timedOut_eq pre post env tl hw,
      ⟨"\nTAIL:\n" ++ tl, str_append_assoc _ _ _⟩⟩

/-- Witness for `wait_init_failures`: one attempt per failure branch. -/
theorem wait_init_failures_witness :
    open_vpn true true envExitEarly =
      ⟨some ⟨false, none, "openvpn-exited-early rc=1\nTAIL:\nT"⟩,
        true, true, true, [Ev.cleanup, Ev.launch, Ev.exitObserved, Ev.cleanup]⟩ ∧
    open_vpn true true envTimeout =
      ⟨some ⟨false, none, "timeout-waiting-init final_rc=9\nTAIL:\nT2"⟩,
        true, true, true, [Ev.cleanup, Ev.launch, Ev.stop, Ev.cleanup]⟩ := by
  constructor
  · exact ((wait_init_failures true true envExitEarly).1 1 "T" rfl).1
  · exact ((wait_init_failures true true envTimeout).2 "T2" rfl).1

end VPN
